import Mathlib

/-!
Verification of the remote-execution and job-scheduling core of the
xespresso repository, shallowly embedded in Lean 4.

The embedding follows the Python source:
  - xespresso/schedulers/remote_mixin.py  (RemoteExecutionMixin)
  - xespresso/remote_runner.py            (RemoteRunner)
  - xespresso/schedulers/base.py          (Scheduler)
  - xespresso/schedulers/direct.py        (DirectScheduler)
  - xespresso/scheduler.py                (set_queue)
  - xespresso/utils/slurm.py              (check_slurm_available)

External effects (SSH commands, SFTP transfers, sleeps, warnings, the
filesystem) are modelled as explicit event lists or as environment
parameters (functions supplied as input), so every definition is
executable and every run of the model corresponds to one run of the
source code under the same observations.
-/

/-! ## String primitives

The embedding implements the Python string primitives the source relies
on (`os.path.join`, `str.strip`, `str.split`, the `in` substring test)
by structural recursion over the character list of the string, so that
every definition reduces inside the kernel and witnesses can be checked
by `decide`. -/

/-- Whether `pat` is a prefix of `l`, as a Boolean on character lists. -/
def charsHavePrefix : List Char → List Char → Bool
  | _, [] => true
  | [], _ :: _ => false
  | c :: cs, p :: ps => c == p && charsHavePrefix cs ps

def strStartsWith (s pat : String) : Bool :=
  charsHavePrefix s.data pat.data

def strEndsWith (s pat : String) : Bool :=
  charsHavePrefix s.data.reverse pat.data.reverse

/-- Models `os.path.join(a, b)` for the two-argument calls appearing in
the source: an absolute second component replaces the first, otherwise
the components are joined with exactly one separator. -/
def pathJoin (a b : String) : String :=
  if strStartsWith b "/" then b
  else if a = "" then b
  else if strEndsWith a "/" then a ++ b
  else a ++ "/" ++ b

def strContainsAux : List Char → List Char → Bool
  | [], pat => charsHavePrefix [] pat
  | c :: cs, pat => charsHavePrefix (c :: cs) pat || strContainsAux cs pat

/-- Models the Python substring test `pat in s`. -/
def strContains (s pat : String) : Bool :=
  strContainsAux s.data pat.data

/-- Models Python `str.strip()`: removes leading and trailing whitespace. -/
def pyStrip (s : String) : String :=
  String.mk
    (((s.data.dropWhile Char.isWhitespace).reverse.dropWhile
        Char.isWhitespace).reverse)

/-- The first line of `s`: models `s.split(chr(10))[0]`. -/
def firstLineOf (s : String) : String :=
  String.mk (s.data.takeWhile (fun c => c != Char.ofNat 10))

/-! ## ConnectionManager session pool

`RemoteExecutionMixin._setup_remote` (remote_mixin.py, lines 44-59):
a class-level dictionary `_remote_sessions` maps `(remote_host,
remote_user)` keys to authenticated `RemoteAuth` sessions.  On a miss the
mixin constructs a session, calls `remote.connect()` (one authentication
handshake) and stores it; on a hit it reuses the stored session with no
handshake.  Sessions are identified here by the `Nat` they were allocated
with, and the handshake counter counts `connect()` calls. -/

structure SetupState where
  sessions : List ((String × String) × Nat)
  nextId : Nat
  handshakes : Nat
deriving DecidableEq, Repr

/-- One call of `_setup_remote` for the key `(host, user)`: returns the
updated pool state and the session the caller ends up holding in
`self.remote`. -/
def setupRemote (st : SetupState) (host user : String) : SetupState × Nat :=
  let key := (host, user)
  match st.sessions.lookup key with
  | some sid => (st, sid)
  | none =>
      let sid := st.nextId
      ({ sessions := (key, sid) :: st.sessions,
         nextId := st.nextId + 1,
         handshakes := st.handshakes + 1 }, sid)

/-- `n` successive `_setup_remote` calls with the same key, collecting the
session returned by each call in order. -/
def setupN (st : SetupState) (host user : String) : Nat → SetupState × List Nat
  | 0 => (st, [])
  | n + 1 =>
      let r1 := setupRemote st host user
      let r2 := setupN r1.fst host user n
      (r2.fst, r1.snd :: r2.snd)

theorem setupRemote_hit (st : SetupState) (host user : String) (sid : Nat)
    (h : st.sessions.lookup (host, user) = some sid) :
    setupRemote st host user = (st, sid) := by
  simp [setupRemote, h]

theorem setupRemote_miss (st : SetupState) (host user : String)
    (h : st.sessions.lookup (host, user) = none) :
    setupRemote st host user =
      ({ sessions := ((host, user), st.nextId) :: st.sessions,
         nextId := st.nextId + 1,
         handshakes := st.handshakes + 1 }, st.nextId) := by
  simp [setupRemote, h]

theorem setupN_hit (host user : String) (sid : Nat) :
    ∀ (n : Nat) (st : SetupState),
      st.sessions.lookup (host, user) = some sid →
      setupN st host user n = (st, List.replicate n sid) := by
  intro n
  induction n with
  | zero => intro st _; simp [setupN]
  | succ n ih =>
      intro st h
      simp [setupN, setupRemote_hit st host user sid h, ih st h,
        List.replicate_succ]

/-- C1: starting from any pool state in which the key `(host, user)` has no
stored session, a sequence of `n ≥ 1` `_setup_remote` calls with that key
performs exactly one authentication handshake (the handshake counter rises
by exactly 1); the first call stores the freshly created session in the
pool, every one of the `n` calls hands the caller that same session, and
the final pool holds exactly one session for the key. -/
theorem C1_session_pool_single_handshake
    (st : SetupState) (host user : String) (n : Nat)
    (habsent : st.sessions.lookup (host, user) = none)
    (hn : 1 ≤ n) :
    (setupN st host user n).fst.handshakes = st.handshakes + 1 ∧
    (setupN st host user n).snd = List.replicate n st.nextId ∧
    (setupN st host user n).fst.sessions.lookup (host, user) = some st.nextId ∧
    ((setupN st host user n).fst.sessions.countP
        (fun e => e.fst = (host, user))) =
      st.sessions.countP (fun e => e.fst = (host, user)) + 1 := by
  obtain ⟨m, rfl⟩ : ∃ m, n = m + 1 := ⟨n - 1, by omega⟩
  have hmiss := setupRemote_miss st host user habsent
  have hlook :
      (((host, user), st.nextId) :: st.sessions).lookup (host, user) =
        some st.nextId := by
    simp [List.lookup]
  have hrest := setupN_hit host user st.nextId m
    ({ sessions := ((host, user), st.nextId) :: st.sessions,
       nextId := st.nextId + 1,
       handshakes := st.handshakes + 1 } : SetupState) hlook
  refine ⟨?_, ?_, ?_, ?_⟩ <;>
    simp [setupN, hmiss, hrest, hlook, List.replicate_succ, List.countP_cons]

/-- Witness for C1 at a concrete pool and key: three calls from the empty
pool for host `h1`, user `u1` return the same session three times and
record exactly one handshake. -/
theorem C1_session_pool_single_handshake_witness :
    (({ sessions := [], nextId := 0, handshakes := 0 } : SetupState).sessions.lookup
        ("h1", "u1") = none) ∧
    (setupN { sessions := [], nextId := 0, handshakes := 0 } "h1" "u1" 3).fst.handshakes =
      0 + 1 ∧
    (setupN { sessions := [], nextId := 0, handshakes := 0 } "h1" "u1" 3).snd =
      List.replicate 3 0 := by
  have h := C1_session_pool_single_handshake
    { sessions := [], nextId := 0, handshakes := 0 } "h1" "u1" 3
    (by simp [List.lookup]) (by omega)
  exact ⟨by simp [List.lookup], h.1, h.2.1⟩

/-! ## RemoteRunner._connect (remote_runner.py, lines 63-155)

Each attempt of the retry loop first opens a raw socket to
`(hostname, port)` with the bounded `timeout` (line 105), then, when a key
path is configured, calls `client.connect` with the key (lines 111-129):
a `FileNotFoundError` or `paramiko.SSHException` falls through to the
password branch, any other exception escapes to the outer handler.  When a
password is configured the same is done with the password (lines 132-146).
If neither branch returned, line 148 raises
`ConnectionError("Authentication failed with both key and password.")`.
Every exception of an attempt is caught at line 150, `time.sleep(delay)`
runs, and the next attempt starts; after `retries` failed attempts line
155 raises the final `ConnectionError` naming the host and the attempt
count.

The nondeterminism of the network is an `AttemptEnv` per attempt: whether
the socket test succeeds and how each authentication call ends. -/

inductive AuthResult where
  | ok
  | credFail
  | otherFail
deriving DecidableEq, Repr

inductive AuthMethod where
  | key
  | password
deriving DecidableEq, Repr

structure AttemptEnv where
  reachable : Bool
  keyAuth : AuthResult
  pwAuth : AuthResult
deriving DecidableEq, Repr

structure ConnConfig where
  hostname : String
  keyPath : Option String
  password : Option String
deriving DecidableEq, Repr

inductive AttemptOutcome where
  | connected (method : AuthMethod)
  | failed (reason : String)
deriving DecidableEq, Repr

/-- The password branch of one attempt (lines 132-148), given the list of
authentication methods already tried during the attempt. -/
def passwordPhase (cfg : ConnConfig) (env : AttemptEnv)
    (tried : List AuthMethod) : AttemptOutcome × List AuthMethod :=
  match cfg.password with
  | some _ =>
      match env.pwAuth with
      | .ok => (.connected .password, tried ++ [.password])
      | .credFail =>
          (.failed "Authentication failed with both key and password.",
           tried ++ [.password])
      | .otherFail =>
          (.failed "password authentication raised outside SSHException",
           tried ++ [.password])
  | none =>
      (.failed "Authentication failed with both key and password.", tried)

/-- One attempt of the retry loop (the body of the `try` at lines 103-148):
the socket reachability test runs first; only on its success is any
authentication attempted, key before password.  Also returns the
authentication methods tried during the attempt, in order. -/
def attemptOnce (cfg : ConnConfig) (env : AttemptEnv) :
    AttemptOutcome × List AuthMethod :=
  if env.reachable = false then
    (.failed "network unreachable within timeout", [])
  else
    match cfg.keyPath with
    | some _ =>
        match env.keyAuth with
        | .ok => (.connected .key, [.key])
        | .credFail => passwordPhase cfg env [.key]
        | .otherFail =>
            (.failed "key authentication raised outside SSHException", [.key])
    | none => passwordPhase cfg env []

/-- Whether the attempt ends in the outer `except` handler. -/
def attemptFails (cfg : ConnConfig) (env : AttemptEnv) : Bool :=
  match (attemptOnce cfg env).fst with
  | .failed _ => true
  | .connected _ => false

inductive ConnectResult where
  | connected (method : AuthMethod) (slept : Nat)
  | error (msg : String) (slept : Nat)
deriving DecidableEq, Repr

/-- The retry loop (lines 100-155) run over one `AttemptEnv` per attempt;
`slept` accumulates the seconds spent in `time.sleep(delay)` after failed
attempts, and `retries` is the total attempt budget reported in the final
error message. -/
def connectGo (cfg : ConnConfig) (retries delay : Nat) :
    List AttemptEnv → Nat → ConnectResult
  | [], slept =>
      .error ("Failed to connect to " ++ cfg.hostname ++ " after " ++
        toString retries ++ " attempts.") slept
  | env :: rest, slept =>
      match attemptOnce cfg env with
      | (.connected m, _) => .connected m slept
      | (.failed _, _) => connectGo cfg retries delay rest (slept + delay)

/-- `RemoteRunner._connect(retries, delay, timeout)` with no live cached
client, driven by the per-attempt environments `envs`
(with `envs.length = retries`). -/
def connectModel (cfg : ConnConfig) (retries delay : Nat)
    (envs : List AttemptEnv) : ConnectResult :=
  connectGo cfg retries delay envs 0

theorem connectGo_all_fail (cfg : ConnConfig) (retries delay : Nat) :
    ∀ (envs : List AttemptEnv) (slept : Nat),
      (∀ e ∈ envs, attemptFails cfg e = true) →
      connectGo cfg retries delay envs slept =
        .error ("Failed to connect to " ++ cfg.hostname ++ " after " ++
          toString retries ++ " attempts.") (slept + envs.length * delay) := by
  intro envs
  induction envs with
  | nil => intro slept _; simp [connectGo]
  | cons e rest ih =>
      intro slept hall
      have he : attemptFails cfg e = true := hall e (by simp)
      have hrest : ∀ x ∈ rest, attemptFails cfg x = true := by
        intro x hx; exact hall x (by simp [hx])
      unfold connectGo
      unfold attemptFails at he
      rcases hout : (attemptOnce cfg e).fst with m | r
      · rw [hout] at he; simp at he
      · have : attemptOnce cfg e = (.failed r, (attemptOnce cfg e).snd) := by
          rw [← hout]
        rw [this, ih (slept + delay) hrest]
        simp [List.length_cons]
        ring

/-- C2: in `RemoteRunner._connect`, (i) an attempt whose network
reachability test fails performs no authentication at all, so reachability
is tested first; (ii) on a reachable attempt with a key configured the
first authentication method tried is the key; (iii) when key
authentication ends in a credential/protocol failure and a password is
configured, password authentication is tried after the key; (iv) a failed
attempt is followed by a sleep of `delay` seconds and the loop moves to
the next attempt; and (v) when all `retries` attempts fail, the call ends
in a connectivity error whose message names the host and the attempt
count, after `retries` sleeps of `delay` seconds. -/
theorem C2_connect_reachability_auth_fallback_retry
    (cfg : ConnConfig) (env : AttemptEnv) (rest : List AttemptEnv)
    (envs : List AttemptEnv) (retries delay slept : Nat) :
    (env.reachable = false →
      (attemptOnce cfg env).snd = [] ∧ attemptFails cfg env = true) ∧
    (env.reachable = true → cfg.keyPath.isSome = true →
      ((attemptOnce cfg env).snd).head? = some .key) ∧
    (env.reachable = true → cfg.keyPath.isSome = true →
      env.keyAuth = .credFail → cfg.password.isSome = true →
      (attemptOnce cfg env).snd = [.key, .password]) ∧
    (attemptFails cfg env = true →
      connectGo cfg retries delay (env :: rest) slept =
        connectGo cfg retries delay rest (slept + delay)) ∧
    ((∀ e ∈ envs, attemptFails cfg e = true) →
      connectModel cfg envs.length delay envs =
        .error ("Failed to connect to " ++ cfg.hostname ++ " after " ++
          toString envs.length ++ " attempts.") (envs.length * delay)) := by
  refine ⟨?_, ?_, ?_, ?_, ?_⟩
  · intro h
    constructor
    · simp [attemptOnce, h]
    · simp [attemptFails, attemptOnce, h]
  · intro h hkey
    rcases hkp : cfg.keyPath with _ | k
    · rw [hkp] at hkey; simp at hkey
    · rcases hk : env.keyAuth with _ | _ | _ <;>
        rcases hpp : cfg.password with _ | p <;>
        rcases hp : env.pwAuth with _ | _ | _ <;>
        simp [attemptOnce, h, hkp, hk, passwordPhase, hpp, hp]
  · intro h hkey hcred hpw
    rcases hkp : cfg.keyPath with _ | k
    · rw [hkp] at hkey; simp at hkey
    · rcases hpp : cfg.password with _ | p
      · rw [hpp] at hpw; simp at hpw
      · rcases hp : env.pwAuth with _ | _ | _ <;>
          simp [attemptOnce, h, hkp, hcred, passwordPhase, hpp, hp]
  · intro h
    unfold attemptFails at h
    rcases hfull : attemptOnce cfg env with ⟨out, tried⟩
    rw [hfull] at h
    rcases out with m | r
    · simp at h
    · simp [connectGo, hfull]
  · intro hall
    have := connectGo_all_fail cfg envs.length delay envs 0 hall
    simpa [connectModel] using this

/-- Witness for C2 at a concrete configuration (host `cluster`, key and
password both configured) and concrete attempt environments: an
unreachable attempt tries no authentication, a reachable attempt with a
key credential failure falls back to password, a failing attempt sleeps
and retries, and two all-failing attempts end in the connectivity error
naming the host and the count 2 after sleeping 10 seconds. -/
theorem C2_connect_reachability_auth_fallback_retry_witness :
    (attemptOnce
        { hostname := "cluster", keyPath := some "~/.ssh/id_rsa",
          password := some "pw" }
        { reachable := false, keyAuth := .ok, pwAuth := .ok }).snd = [] ∧
    (attemptOnce
        { hostname := "cluster", keyPath := some "~/.ssh/id_rsa",
          password := some "pw" }
        { reachable := true, keyAuth := .credFail, pwAuth := .ok }).snd =
      [.key, .password] ∧
    connectModel
        { hostname := "cluster", keyPath := some "~/.ssh/id_rsa",
          password := some "pw" }
        2 5
        [{ reachable := false, keyAuth := .ok, pwAuth := .ok },
         { reachable := true, keyAuth := .credFail, pwAuth := .credFail }] =
      .error "Failed to connect to cluster after 2 attempts." 10 := by
  have h1 := C2_connect_reachability_auth_fallback_retry
    { hostname := "cluster", keyPath := some "~/.ssh/id_rsa",
      password := some "pw" }
    { reachable := false, keyAuth := .ok, pwAuth := .ok } [] [] 2 5 0
  have h2 := C2_connect_reachability_auth_fallback_retry
    { hostname := "cluster", keyPath := some "~/.ssh/id_rsa",
      password := some "pw" }
    { reachable := true, keyAuth := .credFail, pwAuth := .ok } [] [] 2 5 0
  have h3 := C2_connect_reachability_auth_fallback_retry
    { hostname := "cluster", keyPath := some "~/.ssh/id_rsa",
      password := some "pw" }
    { reachable := true, keyAuth := .credFail, pwAuth := .ok } []
    [{ reachable := false, keyAuth := .ok, pwAuth := .ok },
     { reachable := true, keyAuth := .credFail, pwAuth := .credFail }] 2 5 0
  refine ⟨(h1.1 (by decide)).1, h2.2.2.1 (by decide) (by decide) (by decide)
    (by decide), ?_⟩
  have := h3.2.2.2.2 (by decide)
  simpa using this

/-! ## Waiting for SLURM completion (remote_mixin.py, lines 175-214)

`_wait_for_slurm_completion(job_id)` loops forever.  At the top of each
iteration it compares the elapsed wall-clock time against the timeout
(`queue["job_timeout"]`, default 3600) and raises a `RuntimeError`
naming the job id and the timeout when exceeded (lines 190-194).
Otherwise it runs `squeue -j <id> -h -o %T`: non-empty stripped output
means the job is still listed, so it sleeps 10 seconds and repeats (line
214).  Empty output means the job left the queue; it then runs
`sacct -j <id> -n -o State --parsable2`.  If the stripped sacct output is
non-empty, its first line is the terminal state: a state outside
`["COMPLETED", "COMPLETING"]` raises a `RuntimeError` naming the job id
and the state (lines 207-211); otherwise (and also when sacct printed
nothing at all) the loop breaks and the method returns normally.  No
cancellation command is ever issued.

Each loop iteration is driven by one `SlurmObs` of the trace: the elapsed
time observed at the iteration top and the stdout of the two queries. -/

structure SlurmObs where
  elapsed : Nat
  squeueOut : String
  sacctOut : String
deriving DecidableEq, Repr

inductive RemoteCmd where
  | squeueQuery (jobId : String)
  | sacctQuery (jobId : String)
  | scancel (jobId : String)
deriving DecidableEq, Repr

inductive WaitOutcome where
  | ok
  | timedOut (msg : String)
  | jobFailed (msg : String)
  | stillPolling
deriving DecidableEq, Repr

/-- Accepted-success terminal states (line 207). -/
def slurmSuccessStates : List String := ["COMPLETED", "COMPLETING"]

/-- The polling loop, returning its outcome together with the remote
commands it issued, in order.  `stillPolling` marks a trace that ends
while the job is still listed (the real loop would keep polling). -/
def waitForSlurmCompletion (jobId : String) (timeout : Nat) :
    List SlurmObs → WaitOutcome × List RemoteCmd
  | [] => (.stillPolling, [])
  | obs :: rest =>
      if timeout < obs.elapsed then
        (.timedOut ("Job " ++ jobId ++ " timed out after " ++
          toString timeout ++ " seconds"), [])
      else if pyStrip obs.squeueOut ≠ "" then
        let r := waitForSlurmCompletion jobId timeout rest
        (r.fst, .squeueQuery jobId :: r.snd)
      else
        let issued := [RemoteCmd.squeueQuery jobId, RemoteCmd.sacctQuery jobId]
        if pyStrip obs.sacctOut = "" then (.ok, issued)
        else
          let jobState := firstLineOf (pyStrip obs.sacctOut)
          if jobState ∈ slurmSuccessStates then (.ok, issued)
          else
            (.jobFailed ("Job " ++ jobId ++ " failed with state: " ++ jobState),
             issued)

/-- In `RemoteExecutionMixin.run` (lines 158-171) the output file is
verified and retrieved by the statement immediately after
`_wait_for_slurm_completion` returns, so control reaches retrieval exactly
when the wait ends without raising. -/
def proceedsToRetrieval : WaitOutcome → Bool
  | .ok => true
  | _ => false

/-- C3: in `_wait_for_slurm_completion`, (i) while the live-queue listing
is non-empty the loop sleeps and repeats, issuing only the squeue query
that iteration; (ii) once the listing is empty the accounting query is
issued and a non-empty state string outside the accepted-success set
raises a job-failed error naming the job id and the observed state;
(iii) a state in the accepted-success set returns normally; and (iv) when
the elapsed wall-clock time at the top of an iteration exceeds the
timeout, a timeout error naming the job id and the timeout is raised, and
no run ever issues a cancellation command for the job. -/
theorem C3_wait_for_slurm_completion_classification
    (jobId : String) (timeout : Nat) (obs : SlurmObs) (rest trace : List SlurmObs) :
    (obs.elapsed ≤ timeout → pyStrip obs.squeueOut ≠ "" →
      waitForSlurmCompletion jobId timeout (obs :: rest) =
        (((waitForSlurmCompletion jobId timeout rest).fst),
          .squeueQuery jobId :: (waitForSlurmCompletion jobId timeout rest).snd)) ∧
    (obs.elapsed ≤ timeout → pyStrip obs.squeueOut = "" →
      pyStrip obs.sacctOut ≠ "" →
      firstLineOf (pyStrip obs.sacctOut) ∉ slurmSuccessStates →
      waitForSlurmCompletion jobId timeout (obs :: rest) =
        (.jobFailed ("Job " ++ jobId ++ " failed with state: " ++
            firstLineOf (pyStrip obs.sacctOut)),
         [.squeueQuery jobId, .sacctQuery jobId])) ∧
    (obs.elapsed ≤ timeout → pyStrip obs.squeueOut = "" →
      firstLineOf (pyStrip obs.sacctOut) ∈ slurmSuccessStates →
      waitForSlurmCompletion jobId timeout (obs :: rest) =
        (.ok, [.squeueQuery jobId, .sacctQuery jobId])) ∧
    (timeout < obs.elapsed →
      waitForSlurmCompletion jobId timeout (obs :: rest) =
        (.timedOut ("Job " ++ jobId ++ " timed out after " ++
          toString timeout ++ " seconds"), [])) ∧
    (∀ c ∈ (waitForSlurmCompletion jobId timeout trace).snd,
      c ≠ .scancel jobId) := by
  refine ⟨?_, ?_, ?_, ?_, ?_⟩
  · intro h1 h2
    simp [waitForSlurmCompletion, Nat.not_lt.mpr h1, h2]
  · intro h1 h2 h3 h4
    simp [waitForSlurmCompletion, Nat.not_lt.mpr h1, h2, h3, h4]
  · intro h1 h2 h3
    by_cases h4 : pyStrip obs.sacctOut = "" <;>
      simp [waitForSlurmCompletion, Nat.not_lt.mpr h1, h2, h3, h4]
  · intro h1
    simp [waitForSlurmCompletion, h1]
  · induction trace with
    | nil => simp [waitForSlurmCompletion]
    | cons o tr ih =>
        intro c hc
        by_cases h1 : timeout < o.elapsed
        · simp [waitForSlurmCompletion, h1] at hc
        · by_cases h2 : pyStrip o.squeueOut = ""
          · by_cases h3 : pyStrip o.sacctOut = ""
            · simp [waitForSlurmCompletion, h1, h2, h3] at hc
              rcases hc with rfl | rfl <;> simp
            · by_cases h4 : firstLineOf (pyStrip o.sacctOut) ∈ slurmSuccessStates
              · simp [waitForSlurmCompletion, h1, h2, h3, h4] at hc
                rcases hc with rfl | rfl <;> simp
              · simp [waitForSlurmCompletion, h1, h2, h3, h4] at hc
                rcases hc with rfl | rfl <;> simp
          · simp [waitForSlurmCompletion, h1, h2] at hc
            rcases hc with rfl | hc
            · simp
            · exact ih c hc

/-- Witness for C3 at the concrete job id 1234 with a 3600-second timeout:
one still-queued poll followed by an empty listing whose accounting state
is FAILED raises the job-failed error naming both; the state COMPLETED
instead returns normally; and elapsed time 3601 raises the timeout error;
none of the runs issues a cancellation command. -/
theorem C3_wait_for_slurm_completion_classification_witness :
    waitForSlurmCompletion "1234" 3600
        [{ elapsed := 0, squeueOut := "RUNNING", sacctOut := "" },
         { elapsed := 20, squeueOut := "", sacctOut := "FAILED" }] =
      (.jobFailed "Job 1234 failed with state: FAILED",
       [.squeueQuery "1234", .squeueQuery "1234", .sacctQuery "1234"]) ∧
    waitForSlurmCompletion "1234" 3600
        [{ elapsed := 20, squeueOut := "", sacctOut := "COMPLETED" }] =
      (.ok, [.squeueQuery "1234", .sacctQuery "1234"]) ∧
    waitForSlurmCompletion "1234" 3600
        [{ elapsed := 3601, squeueOut := "", sacctOut := "" }] =
      (.timedOut "Job 1234 timed out after 3600 seconds", []) := by
  have h1 := C3_wait_for_slurm_completion_classification "1234" 3600
    { elapsed := 0, squeueOut := "RUNNING", sacctOut := "" }
    [{ elapsed := 20, squeueOut := "", sacctOut := "FAILED" }] []
  have h2 := C3_wait_for_slurm_completion_classification "1234" 3600
    { elapsed := 20, squeueOut := "", sacctOut := "FAILED" } [] []
  have h3 := C3_wait_for_slurm_completion_classification "1234" 3600
    { elapsed := 20, squeueOut := "", sacctOut := "COMPLETED" } [] []
  have h4 := C3_wait_for_slurm_completion_classification "1234" 3600
    { elapsed := 3601, squeueOut := "", sacctOut := "" } [] []
  refine ⟨?_, ?_, ?_⟩
  · rw [h1.1 (by decide) (by decide),
      h2.2.1 (by decide) (by decide) (by decide) (by decide)]
    decide
  · exact h3.2.2.1 (by decide) (by decide) (by decide)
  · exact h4.2.2.2.1 (by decide)

/-- C10: when the job has left the live queue (empty squeue listing) and
the terminal accounting query prints nothing (empty stripped sacct
output), `_wait_for_slurm_completion` breaks out of its loop and returns
normally — outcome `ok`, no error — whatever the rest of the trace would
have held, and in `run` control then proceeds to the output-retrieval
step. -/
theorem C10_empty_sacct_treated_as_success
    (jobId : String) (timeout : Nat) (obs : SlurmObs) (rest : List SlurmObs)
    (h1 : obs.elapsed ≤ timeout)
    (h2 : pyStrip obs.squeueOut = "")
    (h3 : pyStrip obs.sacctOut = "") :
    waitForSlurmCompletion jobId timeout (obs :: rest) =
      (.ok, [.squeueQuery jobId, .sacctQuery jobId]) ∧
    proceedsToRetrieval
      (waitForSlurmCompletion jobId timeout (obs :: rest)).fst = true := by
  have hmain :
      waitForSlurmCompletion jobId timeout (obs :: rest) =
        (.ok, [.squeueQuery jobId, .sacctQuery jobId]) := by
    simp [waitForSlurmCompletion, Nat.not_lt.mpr h1, h2, h3]
  exact ⟨hmain, by rw [hmain]; rfl⟩

/-- Witness for C10: job 77, timeout 3600, one observation with the job
gone from the queue and sacct printing only whitespace. -/
theorem C10_empty_sacct_treated_as_success_witness :
    waitForSlurmCompletion "77" 3600
        [{ elapsed := 30, squeueOut := " ", sacctOut := " " }] =
      (.ok, [.squeueQuery "77", .sacctQuery "77"]) := by
  exact (C10_empty_sacct_treated_as_success "77" 3600
    { elapsed := 30, squeueOut := " ", sacctOut := " " } []
    (by decide) (by decide) (by decide)).1

/-! ## Output verification and retrieval (remote_mixin.py, lines 216-253)

`_verify_and_retrieve_output_file(output_file, local_output,
max_retries=3)` first runs the remote shell test
`[ -f <remote_output_path> ] && echo exists || echo missing` and raises
`FileNotFoundError` when the word `missing` occurs in its stdout (lines
228-235) — before any retrieval attempt.  Then `for attempt in
range(max_retries)` it calls `retrieve_file`; a success returns
immediately, a failure on a non-final attempt sleeps `2 ** attempt`
seconds (exponential backoff, line 248), and a failure on the final
attempt raises a `RuntimeError` naming the file and the configured
maximum attempt count (lines 250-253).

`attemptErr n` is the observed result of retrieval attempt number `n`
(0-based): `none` for success, `some e` for the exception text. -/

inductive RetrieveOutcome where
  | notProduced (msg : String)
  | retrieved (attemptsUsed : Nat)
  | retrievalFailed (msg : String)
  | noAttempt
deriving DecidableEq, Repr

/-- The retry loop of `_verify_and_retrieve_output_file`, returning the
outcome, the list of attempt numbers tried in order, and the list of
backoff sleeps (in seconds) performed between failed attempts.  The fuel
is the number of loop iterations left, `maxRetries - attempt` at entry;
`noAttempt` is the Python fall-through when `range(max_retries)` is empty. -/
def retrieveGo (outputFile : String) (attemptErr : Nat → Option String)
    (maxRetries : Nat) : Nat → Nat → RetrieveOutcome × List Nat × List Nat
  | _, 0 => (.noAttempt, [], [])
  | attempt, fuel + 1 =>
      match attemptErr attempt with
      | none => (.retrieved (attempt + 1), [attempt], [])
      | some e =>
          if attempt < maxRetries - 1 then
            let r := retrieveGo outputFile attemptErr maxRetries (attempt + 1) fuel
            (r.fst, attempt :: r.snd.fst, 2 ^ attempt :: r.snd.snd)
          else
            (.retrievalFailed ("Failed to retrieve " ++ outputFile ++
              " after " ++ toString maxRetries ++ " attempts: " ++ e),
             [attempt], [])

/-- `_verify_and_retrieve_output_file`: existence check first, then the
bounded retry loop. -/
def verifyAndRetrieveOutputFile (remotePath outputFile : String)
    (existsCheckOut : String) (attemptErr : Nat → Option String)
    (maxRetries : Nat) : RetrieveOutcome × List Nat × List Nat :=
  let remoteOutputPath := remotePath ++ "/" ++ outputFile
  if strContains existsCheckOut "missing" then
    (.notProduced ("Output file " ++ remoteOutputPath ++
      " does not exist on remote system"), [], [])
  else retrieveGo outputFile attemptErr maxRetries 0 maxRetries

/-- C4: with the configured maximum of 3 attempts, (i) an existence-check
output containing `missing` raises the not-produced error before any
retrieval attempt (no attempt is recorded); (ii) when the file exists, a
first-attempt success retrieves with one attempt and no backoff; (iii)
failures on attempts 0 and 1 followed by success on the 3rd of 3 attempts
yield overall success after backoff sleeps of 1 and 2 seconds; and (iv)
failure of all 3 attempts raises the retrieval-failure error reporting
the configured maximum of 3 attempts. -/
theorem C4_output_verify_then_bounded_retry
    (remotePath outputFile existsOut : String)
    (attemptErr : Nat → Option String) (e0 e1 e2 : String) :
    (strContains existsOut "missing" = true →
      verifyAndRetrieveOutputFile remotePath outputFile existsOut attemptErr 3 =
        (.notProduced ("Output file " ++ (remotePath ++ "/" ++ outputFile) ++
          " does not exist on remote system"), [], [])) ∧
    (strContains existsOut "missing" = false → attemptErr 0 = none →
      verifyAndRetrieveOutputFile remotePath outputFile existsOut attemptErr 3 =
        (.retrieved 1, [0], [])) ∧
    (strContains existsOut "missing" = false →
      attemptErr 0 = some e0 → attemptErr 1 = some e1 → attemptErr 2 = none →
      verifyAndRetrieveOutputFile remotePath outputFile existsOut attemptErr 3 =
        (.retrieved 3, [0, 1, 2], [1, 2])) ∧
    (strContains existsOut "missing" = false →
      attemptErr 0 = some e0 → attemptErr 1 = some e1 → attemptErr 2 = some e2 →
      verifyAndRetrieveOutputFile remotePath outputFile existsOut attemptErr 3 =
        (.retrievalFailed ("Failed to retrieve " ++ outputFile ++
          " after " ++ toString 3 ++ " attempts: " ++ e2), [0, 1, 2], [1, 2])) := by
  refine ⟨?_, ?_, ?_, ?_⟩
  · intro h
    simp [verifyAndRetrieveOutputFile, h]
  · intro h h0
    simp [verifyAndRetrieveOutputFile, h, retrieveGo, h0]
  · intro h h0 h1 h2
    simp [verifyAndRetrieveOutputFile, h, retrieveGo, h0, h1, h2]
  · intro h h0 h1 h2
    simp [verifyAndRetrieveOutputFile, h, retrieveGo, h0, h1, h2]

/-- Witness for C4 at concrete values: a missing file raises the
not-produced error with no attempt; a run failing twice and succeeding on
the 3rd of 3 attempts retrieves with attempt count 3 after sleeping 1 and
2 seconds; a run failing three times reports failure after 3 attempts. -/
theorem C4_output_verify_then_bounded_retry_witness :
    verifyAndRetrieveOutputFile "/scratch/job1" "pw.pwo" "missing"
        (fun _ => none) 3 =
      (.notProduced
        "Output file /scratch/job1/pw.pwo does not exist on remote system",
       [], []) ∧
    verifyAndRetrieveOutputFile "/scratch/job1" "pw.pwo" "exists"
        (fun n => if n < 2 then some "io error" else none) 3 =
      (.retrieved 3, [0, 1, 2], [1, 2]) ∧
    verifyAndRetrieveOutputFile "/scratch/job1" "pw.pwo" "exists"
        (fun _ => some "io error") 3 =
      (.retrievalFailed "Failed to retrieve pw.pwo after 3 attempts: io error",
       [0, 1, 2], [1, 2]) := by
  have h1 := C4_output_verify_then_bounded_retry "/scratch/job1" "pw.pwo"
    "missing" (fun _ => none) "" "" ""
  have h2 := C4_output_verify_then_bounded_retry "/scratch/job1" "pw.pwo"
    "exists" (fun n => if n < 2 then some "io error" else none)
    "io error" "io error" ""
  have h3 := C4_output_verify_then_bounded_retry "/scratch/job1" "pw.pwo"
    "exists" (fun _ => some "io error") "io error" "io error" "io error"
  refine ⟨?_, ?_, ?_⟩
  · exact h1.1 (by decide)
  · exact h2.2.2.1 (by decide) (by decide) (by decide) (by decide)
  · rw [h3.2.2.2 (by decide) (by decide) (by decide) (by decide)]
    decide

/-! ## Pseudopotential transfer (remote_mixin.py, lines 69-111)

`_transfer_pseudopotentials(max_retries=1)` builds the search directory
list in order: `CONTROL["pseudo_dir"]` when configured, then
`os.environ["ESPRESSO_PSEUDO"]` when set, then the user default
`~/espresso/pseudo/` (lines 74-80).  For each `(symbol, pseudo_file)`
pair it makes `max_retries + 1` identical passes over the directories
(lines 84-104); in a pass, the first directory whose joined path exists
gets the file sent with `send_file`, after which the local and remote
SHA256 checksums are compared: a mismatch emits one warning via
`warnings.warn` and the loop moves on — the transfer is never rolled
back or aborted — while a match logs an info line.  When no directory
holds the file, line 106 emits the warning
`Pseudopotential <file> not found in any known directory.` and the
loop continues with the next pair: nothing is raised.

The filesystem and the checksums are inputs: `fileExists` says which
local paths exist, `localHash`/`remoteHash` give the two checksums. -/

structure PseudoEnv where
  controlPseudoDir : Option String
  espressoPseudoEnv : Option String
  userDefaultDir : String
  fileExists : String → Bool
  localHash : String → String
  remoteHash : String → String

/-- The ordered search directory list (lines 74-80). -/
def searchDirs (env : PseudoEnv) : List String :=
  (env.controlPseudoDir.toList) ++ (env.espressoPseudoEnv.toList) ++
    [env.userDefaultDir]

inductive TransferEvent where
  | sent (localPath remotePath : String)
  | warnChecksum (msg : String)
  | warnNotFound (msg : String)
  | logInfo (file : String)
deriving DecidableEq, Repr

/-- One pass of the inner `for pseudo_dir in search_dirs` loop for one
file: `some events` when some directory held the file (`found = True`),
`none` otherwise. -/
def searchPass (env : PseudoEnv) (remotePseudoDir file : String) :
    List String → Option (List TransferEvent)
  | [] => none
  | d :: rest =>
      let localPath := pathJoin d file
      if env.fileExists localPath then
        let remotePath := pathJoin remotePseudoDir file
        some
          (if env.localHash localPath ≠ env.remoteHash remotePath then
            [.sent localPath remotePath,
             .warnChecksum ("Checksum mismatch for " ++ file ++
               " after transfer.")]
          else
            [.sent localPath remotePath, .logInfo file])
      else searchPass env remotePseudoDir file rest

/-- The `for attempt in range(max_retries + 1)` passes (lines 84-104). -/
def attemptPasses (env : PseudoEnv) (remotePseudoDir file : String) :
    Nat → Option (List TransferEvent)
  | 0 => none
  | n + 1 =>
      match searchPass env remotePseudoDir file (searchDirs env) with
      | some evs => some evs
      | none => attemptPasses env remotePseudoDir file n

/-- Transfer of one pseudopotential file, warning events included. -/
def transferOnePseudo (env : PseudoEnv) (remotePseudoDir file : String)
    (maxRetries : Nat) : List TransferEvent :=
  match attemptPasses env remotePseudoDir file (maxRetries + 1) with
  | some evs => evs
  | none =>
      [.warnNotFound ("Pseudopotential " ++ file ++
        " not found in any known directory.")]

/-- `_transfer_pseudopotentials` over the `(symbol, file)` pairs of the
calculator, collecting the transfer events in order. -/
def transferPseudopotentials (env : PseudoEnv)
    (pseudos : List (String × String)) (remotePath : String)
    (maxRetries : Nat) : List TransferEvent :=
  match pseudos with
  | [] => []
  | (_, file) :: rest =>
      transferOnePseudo env (pathJoin remotePath "pseudo") file maxRetries ++
        transferPseudopotentials env rest remotePath maxRetries

/-- Number of checksum warnings in an event list. -/
def countChecksumWarnings (evs : List TransferEvent) : Nat :=
  evs.countP (fun e => match e with | .warnChecksum _ => true | _ => false)

/-- C5: for a pseudopotential found at `localPath` in the first search
directory that has it, the file is first sent and only then are the
checksums compared: on a match the events are exactly the send followed
by an info log — no warning at all — and on a mismatch the events are
exactly the send followed by one checksum warning, so the file was
already copied when the single warning fires, the warning is the only
one, and the per-file processing ends normally either way (the remaining
files of the list are still processed afterwards). -/
theorem C5_verified_transfer_checksum_policy
    (env : PseudoEnv) (remotePath file symbol : String)
    (rest : List (String × String)) (d : String) (dirs : List String)
    (hdirs : searchDirs env = d :: dirs)
    (hfound : env.fileExists (pathJoin d file) = true) :
    (env.localHash (pathJoin d file) =
        env.remoteHash (pathJoin (pathJoin remotePath "pseudo") file) →
      transferOnePseudo env (pathJoin remotePath "pseudo") file 1 =
        [.sent (pathJoin d file) (pathJoin (pathJoin remotePath "pseudo") file),
         .logInfo file] ∧
      countChecksumWarnings
        (transferOnePseudo env (pathJoin remotePath "pseudo") file 1) = 0) ∧
    (env.localHash (pathJoin d file) ≠
        env.remoteHash (pathJoin (pathJoin remotePath "pseudo") file) →
      transferOnePseudo env (pathJoin remotePath "pseudo") file 1 =
        [.sent (pathJoin d file) (pathJoin (pathJoin remotePath "pseudo") file),
         .warnChecksum ("Checksum mismatch for " ++ file ++ " after transfer.")] ∧
      countChecksumWarnings
        (transferOnePseudo env (pathJoin remotePath "pseudo") file 1) = 1) ∧
    transferPseudopotentials env ((symbol, file) :: rest) remotePath 1 =
      transferOnePseudo env (pathJoin remotePath "pseudo") file 1 ++
        transferPseudopotentials env rest remotePath 1 := by
  refine ⟨?_, ?_, rfl⟩
  · intro hmatch
    have hone : transferOnePseudo env (pathJoin remotePath "pseudo") file 1 =
        [.sent (pathJoin d file) (pathJoin (pathJoin remotePath "pseudo") file),
         .logInfo file] := by
      simp [transferOnePseudo, attemptPasses, hdirs, searchPass, hfound, hmatch]
    exact ⟨hone, by rw [hone]; rfl⟩
  · intro hmismatch
    have hone : transferOnePseudo env (pathJoin remotePath "pseudo") file 1 =
        [.sent (pathJoin d file) (pathJoin (pathJoin remotePath "pseudo") file),
         .warnChecksum ("Checksum mismatch for " ++ file ++
           " after transfer.")] := by
      simp [transferOnePseudo, attemptPasses, hdirs, searchPass, hfound,
        hmismatch]
    exact ⟨hone, by rw [hone]; rfl⟩

/-- Witness for C5 at a concrete environment: the file `Si.UPF` exists in
the explicitly configured directory `/pp`; with matching checksums the
run sends the file and logs with no warning, and with differing remote
checksums the run sends the file and emits exactly one warning. -/
theorem C5_verified_transfer_checksum_policy_witness :
    transferOnePseudo
        { controlPseudoDir := some "/pp", espressoPseudoEnv := none,
          userDefaultDir := "~/espresso/pseudo/",
          fileExists := fun p => p == "/pp/Si.UPF",
          localHash := fun _ => "abc", remoteHash := fun _ => "abc" }
        (pathJoin "/scratch/job1" "pseudo") "Si.UPF" 1 =
      [.sent "/pp/Si.UPF" "/scratch/job1/pseudo/Si.UPF", .logInfo "Si.UPF"] ∧
    transferOnePseudo
        { controlPseudoDir := some "/pp", espressoPseudoEnv := none,
          userDefaultDir := "~/espresso/pseudo/",
          fileExists := fun p => p == "/pp/Si.UPF",
          localHash := fun _ => "abc", remoteHash := fun _ => "def" }
        (pathJoin "/scratch/job1" "pseudo") "Si.UPF" 1 =
      [.sent "/pp/Si.UPF" "/scratch/job1/pseudo/Si.UPF",
       .warnChecksum "Checksum mismatch for Si.UPF after transfer."] := by
  have h1 := C5_verified_transfer_checksum_policy
    { controlPseudoDir := some "/pp", espressoPseudoEnv := none,
      userDefaultDir := "~/espresso/pseudo/",
      fileExists := fun p => p == "/pp/Si.UPF",
      localHash := fun _ => "abc", remoteHash := fun _ => "abc" }
    "/scratch/job1" "Si.UPF" "Si" [] "/pp" ["~/espresso/pseudo/"]
    (by rfl) (by decide)
  have h2 := C5_verified_transfer_checksum_policy
    { controlPseudoDir := some "/pp", espressoPseudoEnv := none,
      userDefaultDir := "~/espresso/pseudo/",
      fileExists := fun p => p == "/pp/Si.UPF",
      localHash := fun _ => "abc", remoteHash := fun _ => "def" }
    "/scratch/job1" "Si.UPF" "Si" [] "/pp" ["~/espresso/pseudo/"]
    (by rfl) (by decide)
  constructor
  · rw [(h1.1 (by decide)).1]; decide
  · rw [(h2.2.1 (by decide)).1]; decide

theorem searchPass_none (env : PseudoEnv) (remotePseudoDir file : String) :
    ∀ dirs : List String,
      (∀ d ∈ dirs, env.fileExists (pathJoin d file) = false) →
      searchPass env remotePseudoDir file dirs = none := by
  intro dirs
  induction dirs with
  | nil => intro _; rfl
  | cons d rest ih =>
      intro hall
      have hd : env.fileExists (pathJoin d file) = false := hall d (by simp)
      have hrest : ∀ x ∈ rest, env.fileExists (pathJoin x file) = false := by
        intro x hx; exact hall x (by simp [hx])
      simp [searchPass, hd, ih hrest]

theorem attemptPasses_none (env : PseudoEnv) (remotePseudoDir file : String)
    (hnone : searchPass env remotePseudoDir file (searchDirs env) = none) :
    ∀ n : Nat, attemptPasses env remotePseudoDir file n = none := by
  intro n
  induction n with
  | zero => rfl
  | succ n ih => simp [attemptPasses, hnone, ih]

/-- C6 counterexample: the claim says a pseudopotential found in none of
the search locations makes the transfer operation fatal, raising a
not-found error that names the asset and the ordered list of locations
tried.  At the concrete input below — configured path `/pp`, no
environment directory, user default `~/espresso/pseudo/`, with `Si.UPF`
existing nowhere and `O.UPF` existing in `/pp` — the code instead emits a
single warning and carries on transferring the next asset: the run
returns normally with the later `sent` event present, and the warning
text mentions neither `/pp` nor `~/espresso/pseudo/`. -/
theorem C6_missing_pseudo_not_fatal_counterexample :
    transferPseudopotentials
        { controlPseudoDir := some "/pp", espressoPseudoEnv := none,
          userDefaultDir := "~/espresso/pseudo/",
          fileExists := fun p => p == "/pp/O.UPF",
          localHash := fun _ => "abc", remoteHash := fun _ => "abc" }
        [("Si", "Si.UPF"), ("O", "O.UPF")] "/scratch/job1" 1 =
      [.warnNotFound "Pseudopotential Si.UPF not found in any known directory.",
       .sent "/pp/O.UPF" "/scratch/job1/pseudo/O.UPF",
       .logInfo "O.UPF"] ∧
    strContains
        "Pseudopotential Si.UPF not found in any known directory." "/pp" =
      false ∧
    strContains
        "Pseudopotential Si.UPF not found in any known directory."
        "~/espresso/pseudo/" =
      false := by
  refine ⟨by decide, by decide, by decide⟩

/-- C6 amended: a required pseudopotential found in none of the search
locations — the explicitly configured path, the environment-provided base
directory and the user default directory, tried in that order — is not
fatal: `_transfer_pseudopotentials` emits exactly one warning, whose
message names the missing asset but not the locations tried, and
processing continues with the remaining assets. -/
theorem C6_missing_pseudo_warns_and_continues
    (env : PseudoEnv) (remotePath file symbol : String)
    (rest : List (String × String)) (maxRetries : Nat)
    (habsent : ∀ d ∈ searchDirs env, env.fileExists (pathJoin d file) = false) :
    searchDirs env =
      env.controlPseudoDir.toList ++ env.espressoPseudoEnv.toList ++
        [env.userDefaultDir] ∧
    transferOnePseudo env (pathJoin remotePath "pseudo") file maxRetries =
      [.warnNotFound ("Pseudopotential " ++ file ++
        " not found in any known directory.")] ∧
    transferPseudopotentials env ((symbol, file) :: rest) remotePath maxRetries =
      .warnNotFound ("Pseudopotential " ++ file ++
          " not found in any known directory.") ::
        transferPseudopotentials env rest remotePath maxRetries := by
  have hpass := searchPass_none env (pathJoin remotePath "pseudo") file
    (searchDirs env) habsent
  have hone : transferOnePseudo env (pathJoin remotePath "pseudo") file
      maxRetries =
      [.warnNotFound ("Pseudopotential " ++ file ++
        " not found in any known directory.")] := by
    simp [transferOnePseudo,
      attemptPasses_none env (pathJoin remotePath "pseudo") file hpass]
  refine ⟨rfl, hone, ?_⟩
  simp [transferPseudopotentials, hone]

/-- Witness for the amended C6 at the concrete environment of the
counterexample: the missing `Si.UPF` yields its single warning while the
following `O.UPF` is still transferred. -/
theorem C6_missing_pseudo_warns_and_continues_witness :
    transferPseudopotentials
        { controlPseudoDir := some "/pp", espressoPseudoEnv := none,
          userDefaultDir := "~/espresso/pseudo/",
          fileExists := fun p => p == "/pp/O.UPF",
          localHash := fun _ => "abc", remoteHash := fun _ => "abc" }
        [("Si", "Si.UPF"), ("O", "O.UPF")] "/scratch/job1" 1 =
      .warnNotFound "Pseudopotential Si.UPF not found in any known directory." ::
        transferPseudopotentials
          { controlPseudoDir := some "/pp", espressoPseudoEnv := none,
            userDefaultDir := "~/espresso/pseudo/",
            fileExists := fun p => p == "/pp/O.UPF",
            localHash := fun _ => "abc", remoteHash := fun _ => "abc" }
          [("O", "O.UPF")] "/scratch/job1" 1 := by
  have h := C6_missing_pseudo_warns_and_continues
    { controlPseudoDir := some "/pp", espressoPseudoEnv := none,
      userDefaultDir := "~/espresso/pseudo/",
      fileExists := fun p => p == "/pp/O.UPF",
      localHash := fun _ => "abc", remoteHash := fun _ => "abc" }
    "/scratch/job1" "Si.UPF" "Si" [("O", "O.UPF")] 1
    (by intro d hd; fin_cases hd <;> decide)
  have := h.2.2
  simpa using this

/-! ## RemoteRunner.transfer_inputs (remote_runner.py, lines 192-247)

`transfer_inputs(local_dir, remote_subdir)` creates the remote directory,
then iterates over `os.listdir(local_dir)`.  Line 223 reads

    local_path = os.pathjoin(local_dir, filename)

`os.pathjoin` does not exist (the function is `os.path.join`), so the
first loop iteration raises
`AttributeError: module os has no attribute pathjoin` before any
top-level file is transferred.  The subsequent code (the `isfile` check,
the `sftp.put`, and the one-level `pseudos/` recursion at lines 230-245,
which uses `os.path.join` correctly) is embedded faithfully after the
faulty call, so the model reaches it only when the top-level listing is
empty. -/

inductive PyError where
  | attributeError (msg : String)
deriving DecidableEq, Repr

/-- The call `os.pathjoin(a, b)` of line 223: the attribute does not
exist, so the call always raises. -/
def os_pathjoin (_a _b : String) : Except PyError String :=
  .error (.attributeError "module os has no attribute pathjoin")

inductive XferEvent where
  | mkdirRemote (path : String)
  | put (localPath remotePath : String)
  | mkdirPseudos (path : String)
deriving DecidableEq, Repr

/-- The top-level file loop (lines 222-227). -/
def transferTopLevel (localDir remoteDir : String) (isFile : String → Bool) :
    List String → Except PyError (List XferEvent)
  | [] => .ok []
  | name :: rest => do
      let localPath ← os_pathjoin localDir name
      let remotePath := pathJoin remoteDir name
      let evs ← transferTopLevel localDir remoteDir isFile rest
      .ok (if isFile localPath then .put localPath remotePath :: evs else evs)

/-- The `pseudos/` subfolder branch (lines 229-245): created remotely and
its files transferred one level deep when the local folder exists. -/
def transferPseudosFolder (localDir remoteDir : String)
    (pseudosIsDir : Bool) (pseudoEntries : List String)
    (pseudoIsFile : String → Bool) : List XferEvent :=
  if pseudosIsDir then
    XferEvent.mkdirPseudos (pathJoin remoteDir "pseudos") ::
      pseudoEntries.filterMap (fun name =>
        let localPath := pathJoin (pathJoin localDir "pseudos") name
        let remotePath := pathJoin (pathJoin remoteDir "pseudos") name
        if pseudoIsFile localPath then some (.put localPath remotePath)
        else none)
  else []

/-- `RemoteRunner.transfer_inputs`, with the local directory listing and
file-type tests supplied as inputs. -/
def transfer_inputs (remoteBaseDir localDir remoteSubdir : String)
    (entries : List String) (isFile : String → Bool)
    (pseudosIsDir : Bool) (pseudoEntries : List String)
    (pseudoIsFile : String → Bool) : Except PyError (List XferEvent) := do
  let remoteDir := pathJoin remoteBaseDir remoteSubdir
  let topEvs ← transferTopLevel localDir remoteDir isFile entries
  let pseudoEvs := transferPseudosFolder localDir remoteDir pseudosIsDir
    pseudoEntries pseudoIsFile
  .ok (XferEvent.mkdirRemote remoteDir :: topEvs ++ pseudoEvs)

/-- C7 (code bug): the claim says `transfer_inputs` copies exactly the
top-level regular files of the local directory and completes normally on
any readable local directory.  The repository's own test
(`tests/test_transfer_inputs.py`) and the docstring promise the same.
The typo `os.pathjoin` at remote_runner.py line 223 instead raises an
`AttributeError` on the very first directory entry: at the concrete
failing input — a readable local directory holding the two regular files
of the repository's test — the run returns the error and transfers
nothing, and only a directory with no entries at all escapes the bug. -/
theorem C7_transfer_inputs_pathjoin_bug :
    transfer_inputs "/remote/base" "/home/user/job_123" "job_123"
        ["input1.pwi", "input2.pwi"] (fun _ => true) false [] (fun _ => true) =
      .error (.attributeError "module os has no attribute pathjoin") ∧
    transfer_inputs "/remote/base" "/home/user/job_123" "job_123"
        [] (fun _ => true) false [] (fun _ => true) =
      .ok [.mkdirRemote "/remote/base/job_123"] := by
  constructor
  · rfl
  · rfl

/-! ## Direct scheduler script generation
(schedulers/base.py lines 46-88, schedulers/direct.py lines 25-46)

`Scheduler._load_config_script` builds the environment-setup block from
the queue configuration: the custom `prepend` commands when the key is
present, then a blank entry, then `module purge` plus one `module load`
line per module when `use_modules` is set and the module list is a
non-empty list, then a blank entry, then the content of the
`xespressorc` file when configured and present in `$HOME`; the entries
are joined with the newline.  `DirectScheduler.write_script` serialises
the script as the lines `#!/bin/bash`, blank, the environment-setup
block when non-empty followed by a blank, the main command, a blank,
and the post-execution block when non-empty, joined with the newline;
`DirectScheduler.submit_command` returns `bash <job_file>`. -/

/-- Python `chr(10).join(lines)`. -/
def joinLines : List String → String
  | [] => ""
  | [l] => l
  | l :: ls => l ++ "\n" ++ joinLines ls

structure QueueCfg where
  prepend : Option String
  useModules : Bool
  modules : List String
  xespressorcContent : Option String
deriving DecidableEq, Repr

/-- `Scheduler._load_config_script` (base.py lines 46-79);
`xespressorcContent` is the content of the configured `$HOME` snippet
when that file exists, `none` otherwise. -/
def load_config_script (q : QueueCfg) : String :=
  joinLines
    ((match q.prepend with | some s => [s] | none => []) ++ [""] ++
     (if q.useModules ∧ q.modules ≠ [] then
        "module purge" :: q.modules.map (fun m => "module load " ++ m)
      else []) ++ [""] ++
     (match q.xespressorcContent with | some content => [content] | none => []))

/-- The line list built by `DirectScheduler.write_script` (direct.py lines
26-39): the Python truthiness tests on the two optional blocks are
non-emptiness tests on strings. -/
def writeScriptLines (configScript command postScript : String) : List String :=
  ["#!/bin/bash", ""] ++
    (if configScript ≠ "" then [configScript, ""] else []) ++
    [command, ""] ++
    (if postScript ≠ "" then [postScript] else [])

/-- The script text written to the job file (direct.py line 43). -/
def writeScriptText (configScript command postScript : String) : String :=
  joinLines (writeScriptLines configScript command postScript)

/-- `DirectScheduler.submit_command` (direct.py line 46). -/
def submit_command (jobFile : String) : String :=
  "bash " ++ jobFile

/-- C8: when the environment-setup and post-execution blocks are both
non-empty (the main command line is always present), the generated direct
script text is exactly the shebang line followed by the three blocks in
the fixed order environment-setup, main command, post-execution, each
consecutive pair separated by one blank line; and the direct submission
command is the shell interpreter applied to the script name. -/
theorem C8_direct_script_block_order_and_submit
    (configScript command postScript jobFile : String)
    (hc : configScript ≠ "") (hp : postScript ≠ "") :
    writeScriptText configScript command postScript =
      "#!/bin/bash\n\n" ++ configScript ++ "\n\n" ++ command ++ "\n\n" ++
        postScript ∧
    submit_command jobFile = "bash " ++ jobFile := by
  constructor
  · have hlines : writeScriptLines configScript command postScript =
        ["#!/bin/bash", "", configScript, "", command, "", postScript] := by
      simp [writeScriptLines, hc, hp]
    rw [writeScriptText, hlines]
    apply String.ext
    simp [joinLines, String.data_append]
  · rfl

/-- Witness for C8: a concrete script with environment block
`module load qe`, command `pw.x -in pw.pwi`, post block `echo done`, and
the job file name `job_file` used by the scheduler base class. -/
theorem C8_direct_script_block_order_and_submit_witness :
    writeScriptText "module load qe" "pw.x -in pw.pwi" "echo done" =
      "#!/bin/bash\n\nmodule load qe\n\npw.x -in pw.pwi\n\necho done" ∧
    submit_command "job_file" = "bash job_file" := by
  have h := C8_direct_script_block_order_and_submit
    "module load qe" "pw.x -in pw.pwi" "echo done" "job_file"
    (by decide) (by decide)
  refine ⟨?_, ?_⟩
  · rw [h.1]; decide
  · rw [h.2]; decide

/-! ## SLURM availability validation for local execution
(scheduler.py lines 32-84, utils/slurm.py lines 32-54)

`check_slurm_available()` returns immediately when the environment
variable `XESPRESSO_FORCE_SCHEDULER` equals 1; otherwise it raises a
`RuntimeError` when `sbatch` is not on the PATH, and then a
`RuntimeError` when `scontrol ping` exits non-zero.  `set_queue` runs
this check — wrapping any failure into a `RuntimeError` whose message
starts `SLURM scheduler is not available locally:` — exactly when the
queue requests the `slurm` scheduler with execution `local` (the
default when the `execution` key is absent), and only after the check
passes does it initialise the scheduler and call `write_script`. -/

structure SlurmEnv where
  forceScheduler : Bool
  sbatchOnPath : Bool
  scontrolPingOk : Bool
deriving DecidableEq, Repr

/-- `check_slurm_available` (utils/slurm.py lines 32-54). -/
def check_slurm_available (env : SlurmEnv) : Except String Unit :=
  if env.forceScheduler then .ok ()
  else if env.sbatchOnPath = false then
    .error "SLURM scheduler requested but sbatch command not found."
  else if env.scontrolPingOk = false then
    .error "SLURM is installed but the controller is not responding."
  else .ok ()

structure Queue where
  scheduler : Option String
  execution : Option String
deriving DecidableEq, Repr

inductive SetQueueStep where
  | slurmCheck
  | initScheduler (kind : String)
  | writeScript (kind : String)
deriving DecidableEq, Repr

inductive SetQueueResult where
  | ok (schedulerKind : String)
  | raisedRuntimeError (msg : String)
deriving DecidableEq, Repr

/-- The scheduler-selection slice of `set_queue` (scheduler.py lines
52-80): default to the local direct scheduler when none is configured,
validate SLURM availability for local SLURM execution before any script
is generated, and otherwise initialise the scheduler of the requested
kind and write its script.  The second component lists the performed
steps in order. -/
def set_queue_model (q : Queue) (env : SlurmEnv) :
    SetQueueResult × List SetQueueStep :=
  let q2 := if q.scheduler.isNone then
      ({ scheduler := some "direct", execution := some "local" } : Queue)
    else q
  let kind := q2.scheduler.getD "direct"
  if kind = "slurm" ∧ q2.execution.getD "local" = "local" then
    match check_slurm_available env with
    | .error e =>
        (.raisedRuntimeError ("SLURM scheduler is not available locally: " ++ e),
         [.slurmCheck])
    | .ok _ =>
        (.ok kind, [.slurmCheck, .initScheduler kind, .writeScript kind])
  else
    (.ok kind, [.initScheduler kind, .writeScript kind])

/-- C9: for a queue requesting the `slurm` scheduler with local execution
(also when the `execution` key is absent, since local is the default),
(i) whenever the availability check fails — which, absent the forcing
override, happens exactly when `sbatch` is missing from the PATH or the
controller liveness ping fails — `set_queue` raises the
scheduler-unavailable `RuntimeError` wrapping the check's message, and
the performed steps contain no script generation and no scheduler
initialisation of any kind, direct included, so the system does not
silently degrade to direct execution; and (ii) whenever the check
passes, the validation step precedes script generation and the scheduler
kind remains `slurm` throughout. -/
theorem C9_local_slurm_validated_before_script
    (q : Queue) (env : SlurmEnv) (e : String)
    (hslurm : q.scheduler = some "slurm")
    (hlocal : q.execution.getD "local" = "local") :
    (env.forceScheduler = false →
      (env.sbatchOnPath = false ∨ env.scontrolPingOk = false) →
      ∃ msg, check_slurm_available env = .error msg) ∧
    (check_slurm_available env = .error e →
      set_queue_model q env =
        (.raisedRuntimeError ("SLURM scheduler is not available locally: " ++ e),
         [.slurmCheck]) ∧
      ∀ kind, SetQueueStep.writeScript kind ∉ (set_queue_model q env).snd ∧
        SetQueueStep.initScheduler kind ∉ (set_queue_model q env).snd) ∧
    (check_slurm_available env = .ok () →
      set_queue_model q env =
        (.ok "slurm",
         [.slurmCheck, .initScheduler "slurm", .writeScript "slurm"])) := by
  refine ⟨?_, ?_, ?_⟩
  · intro hforce hfail
    rcases hfail with h | h
    · exact ⟨"SLURM scheduler requested but sbatch command not found.",
        by simp [check_slurm_available, hforce, h]⟩
    · rcases hsb : env.sbatchOnPath with _ | _
      · exact ⟨"SLURM scheduler requested but sbatch command not found.",
          by simp [check_slurm_available, hforce, hsb]⟩
      · exact ⟨"SLURM is installed but the controller is not responding.",
          by simp [check_slurm_available, hforce, hsb, h]⟩
  · intro herr
    have hmodel : set_queue_model q env =
        (.raisedRuntimeError ("SLURM scheduler is not available locally: " ++ e),
         [.slurmCheck]) := by
      simp [set_queue_model, hslurm, hlocal, herr]
    refine ⟨hmodel, ?_⟩
    intro kind
    rw [hmodel]
    constructor <;> simp
  · intro hok
    simp [set_queue_model, hslurm, hlocal, hok]

/-- Witness for C9 at concrete inputs: the queue
`scheduler = slurm, execution = local` with `sbatch` absent from the PATH
raises the scheduler-unavailable error with only the validation step
performed, while the same queue with a working SLURM validates first and
only then writes the script, staying on `slurm`. -/
theorem C9_local_slurm_validated_before_script_witness :
    set_queue_model
        { scheduler := some "slurm", execution := some "local" }
        { forceScheduler := false, sbatchOnPath := false,
          scontrolPingOk := true } =
      (.raisedRuntimeError
        ("SLURM scheduler is not available locally: " ++
          "SLURM scheduler requested but sbatch command not found."),
       [.slurmCheck]) ∧
    set_queue_model
        { scheduler := some "slurm", execution := some "local" }
        { forceScheduler := false, sbatchOnPath := true,
          scontrolPingOk := true } =
      (.ok "slurm",
       [.slurmCheck, .initScheduler "slurm", .writeScript "slurm"]) := by
  have h1 := C9_local_slurm_validated_before_script
    { scheduler := some "slurm", execution := some "local" }
    { forceScheduler := false, sbatchOnPath := false, scontrolPingOk := true }
    "SLURM scheduler requested but sbatch command not found."
    (by rfl) (by rfl)
  have h2 := C9_local_slurm_validated_before_script
    { scheduler := some "slurm", execution := some "local" }
    { forceScheduler := false, sbatchOnPath := true, scontrolPingOk := true }
    "" (by rfl) (by rfl)
  exact ⟨(h1.2.1 (by rfl)).1, h2.2.2 (by rfl)⟩
